import Mathlib

/-!
Shallow embedding of `jurl` (src/main.rs): a curl-like CLI that delegates
browser work to the external `headless_chrome` library.  The whole program is
the single async `main`, embedded here as the function `run` over a parsed
`Config` (mirroring the clap `Args` struct) and an `Env` recording the results
that the external collaborators (browser session, filesystem, serde_json)
would return.  `run` produces the observable trace: the sequence of browser
operations performed, stdout lines, stderr lines, files written, the extracted
content string (when the run reaches extraction), and the process outcome.
Terminal colouring (`colored` crate) is presentation only and elided: lines are
modelled by their text.
-/

namespace Jurl

/-- Output format enum, mirroring `enum OutputFormat { Html, Text, Json }`. -/
inductive OutputFormat where
  | Html
  | Text
  | Json
deriving DecidableEq, Repr

/-- Parsed CLI arguments, mirroring `struct Args` field by field.
`timeout` is `u64` seconds (modelled as `Nat`). -/
structure Config where
  url : String
  method : String
  include_headers : Bool
  verbose : Bool
  follow_redirects : Bool
  output : Option String
  headers : List String
  data : Option String
  wait_for_selector : Option String
  timeout : Nat
  screenshot : Option String
  format : OutputFormat
  silent : Bool
  user_agent : Option String
deriving Repr

/-- The `serde_json::Value` returned inside a `RemoteObject` by
`tab.evaluate`; the code only observes it through `as_str`, which yields the
string for `Value::String` and `None` for every other variant. -/
inductive JsValue where
  | str (s : String)
  | nonStr
deriving DecidableEq, Repr

/-- `serde_json::Value::as_str`. -/
def JsValue.as_str : JsValue → Option String
  | .str s => some s
  | .nonStr => none

/-- Model of a parsed `serde_json::Value` produced by `serde_json::from_str`. -/
inductive JValue where
  | null
  | bool (b : Bool)
  | num (n : Int)
  | str (s : String)
  | arr (elems : List JValue)
  | obj (fields : List (String × JValue))

/-- One call into an external collaborator, in the order `main` performs them. -/
inductive BrowserOp where
  | launch
  | newTab
  | setUserAgent (ua : String)
  | setDefaultTimeout (secs : Nat)
  | navigate (url : String)
  | waitForElement (sel : String)
  | waitUntilNavigated
  | sleepSecs (n : Nat)
  | captureScreenshot
  | getContent
  | evaluate (script : String)
deriving DecidableEq, Repr

/-- How the process ends.  `errExit` is `main` returning `Err(e)` (anyhow
prints the error and the process exits non-zero); `exitCode` is an explicit
`std::process::exit`; `panicked` is a Rust panic (e.g. `Option::unwrap` on
`None`). -/
inductive Outcome where
  | success
  | exitCode (code : Nat)
  | errExit (msg : String)
  | panicked (msg : String)
deriving DecidableEq, Repr

/-- Results the external world would hand back to each call `main` makes.
Fallible library calls are `Except`; `fromStr`/`toStringPretty` model
`serde_json::from_str::<Value>` / `serde_json::to_string_pretty` (the latter is
infallible on a `Value`).  Screenshot bytes and file contents are modelled as
strings of bytes. -/
structure Env where
  launch : Except String Unit
  newTab : Except String Unit
  setUserAgent : Except String Unit
  navigate : Except String Unit
  waitForElement : Except String Unit
  waitUntilNavigated : Except String Unit
  captureScreenshot : Except String String
  getContent : Except String String
  evaluate : Except String (Option JsValue)
  writeFile : String → String → Except String Unit
  fromStr : String → Option JValue
  toStringPretty : JValue → String

/-- The observable trace of one run: browser/library operations in order,
stdout lines, stderr lines, files written as (path, bytes) pairs, the value of
the `content` local once computed (instrumentation; `none` when the run ends
before extraction), and the process outcome. -/
structure RunResult where
  browserOps : List BrowserOp
  stdoutLines : List String
  stderrLines : List String
  filesWritten : List (String × String)
  content : Option String
  outcome : Outcome
deriving DecidableEq, Repr

/-- Rust's `str::to_uppercase` as applied to `args.method`: uppercase each
character (ASCII suffices for the method names the program compares). -/
def toUppercase (s : String) : String := String.mk (s.data.map Char.toUpper)

/-- Step 5 of `main` (lines 177-188): if a selector was given, wait for it
(recording the verbose line first); otherwise wait until navigated and then
sleep 2 seconds.  Returns the ops performed, the stderr lines emitted, and
the step's result. -/
structure WaitOut where
  ops : List BrowserOp
  err : List String
  res : Except String Unit

def waitStep (args : Config) (env : Env) : WaitOut :=
  match args.wait_for_selector with
  | some sel =>
      { ops := [.waitForElement sel]
        err := if args.verbose then ["* Waiting for selector: " ++ sel] else []
        res := env.waitForElement }
  | none =>
      match env.waitUntilNavigated with
      | .error e => { ops := [.waitUntilNavigated], err := [], res := .error e }
      | .ok _ => { ops := [.waitUntilNavigated, .sleepSecs 2], err := [], res := .ok () }

/-- Result of the content-extraction `match args.format` (lines 207-228):
either a content string, a propagated library error, or a Rust panic (the
`result.value.unwrap()` on a `None` value). -/
inductive EvalOutcome where
  | ok (content : String)
  | failed (e : String)
  | panicked (msg : String)
deriving DecidableEq, Repr

structure ExtractOut where
  ops : List BrowserOp
  res : EvalOutcome

/-- Lines 207-228 of `main`.  Html: `tab.get_content()`.  Text:
`tab.evaluate("document.body.innerText", false)` then
`result.value.unwrap().as_str().unwrap_or("")` — note the `unwrap()` panics
when the evaluation yielded no value.  Json: the same text extraction, then
`serde_json::from_str`; on success pretty-print, on failure the raw text. -/
def extractContent (args : Config) (env : Env) : ExtractOut :=
  match args.format with
  | .Html =>
      { ops := [.getContent]
        res := match env.getContent with
          | .error e => .failed e
          | .ok s => .ok s }
  | .Text =>
      { ops := [.evaluate "document.body.innerText"]
        res := match env.evaluate with
          | .error e => .failed e
          | .ok none => .panicked "called Option::unwrap on a None value"
          | .ok (some v) => .ok ((v.as_str).getD "") }
  | .Json =>
      { ops := [.evaluate "document.body.innerText"]
        res := match env.evaluate with
          | .error e => .failed e
          | .ok none => .panicked "called Option::unwrap on a None value"
          | .ok (some v) =>
              let text := (v.as_str).getD ""
              match env.fromStr text with
              | some json => .ok (env.toStringPretty json)
              | none => .ok text }

/-- The synthetic header block of lines 231-237: printed exactly when
`args.include_headers && !args.silent`; `content.len()` is the UTF-8 byte
length of the Rust `String`. -/
def headerLines (args : Config) (content : String) : List String :=
  if args.include_headers && !args.silent then
    ["HTTP/1.1 200 OK",
     "Content-Length: " ++ toString content.utf8ByteSize,
     "Content-Type: text/html; charset=utf-8",
     ""]
  else []

/-- Stdout/stderr/files/outcome contribution of lines 239-255 (writing the
content out, plus the final verbose line). -/
structure OutOut where
  out : List String
  err : List String
  files : List (String × String)
  outcome : Outcome

def outputStep (args : Config) (env : Env) (content : String) : OutOut :=
  match args.output with
  | some f =>
      let verr := if args.verbose then ["* Writing output to: " ++ f] else []
      match env.writeFile f content with
      | .error e => { out := [], err := verr, files := [], outcome := .errExit e }
      | .ok _ =>
          { out := if args.silent then [] else ["Output saved to: " ++ f]
            err := verr ++ (if args.verbose then ["* Connection closed"] else [])
            files := [(f, content)]
            outcome := .success }
  | none =>
      { out := if args.silent then [] else [content]
        err := if args.verbose then ["* Connection closed"] else []
        files := []
        outcome := .success }

/-- Lines 191-255: everything after the wait step succeeded.  Screenshot mode
(lines 191-204) short-circuits with `return Ok(())`; otherwise extraction,
the synthetic header block, and output. -/
def afterWait (args : Config) (env : Env) : RunResult :=
  match args.screenshot with
  | some path =>
      let verr := if args.verbose then ["* Taking screenshot to: " ++ path] else []
      match env.captureScreenshot with
      | .error e =>
          { browserOps := [.captureScreenshot], stdoutLines := [], stderrLines := verr
            filesWritten := [], content := none, outcome := .errExit e }
      | .ok shot =>
          match env.writeFile path shot with
          | .error e =>
              { browserOps := [.captureScreenshot], stdoutLines := [], stderrLines := verr
                filesWritten := [], content := none, outcome := .errExit e }
          | .ok _ =>
              { browserOps := [.captureScreenshot]
                stdoutLines := ["Screenshot saved to: " ++ path]
                stderrLines := verr
                filesWritten := [(path, shot)]
                content := none
                outcome := .success }
  | none =>
      let ex := extractContent args env
      match ex.res with
      | .failed e =>
          { browserOps := ex.ops, stdoutLines := [], stderrLines := []
            filesWritten := [], content := none, outcome := .errExit e }
      | .panicked m =>
          { browserOps := ex.ops, stdoutLines := [], stderrLines := []
            filesWritten := [], content := none, outcome := .panicked m }
      | .ok c =>
          let o := outputStep args env c
          { browserOps := ex.ops
            stdoutLines := headerLines args c ++ o.out
            stderrLines := o.err
            filesWritten := o.files
            content := some c
            outcome := o.outcome }

/-- Lines 177-255: the wait step followed by everything after it. -/
def afterNav (args : Config) (env : Env) : RunResult :=
  let w := waitStep args env
  match w.res with
  | .error e =>
      { browserOps := w.ops, stdoutLines := [], stderrLines := w.err
        filesWritten := [], content := none, outcome := .errExit e }
  | .ok _ =>
      let r := afterWait args env
      { browserOps := w.ops ++ r.browserOps
        stdoutLines := r.stdoutLines
        stderrLines := w.err ++ r.stderrLines
        filesWritten := r.filesWritten
        content := r.content
        outcome := r.outcome }

/-- The verbose POST-data echo of lines 164-169: the only place `args.data`
is ever read. -/
def postEcho (args : Config) : List String :=
  match args.data with
  | some d => if args.verbose then ["* Sending POST data: " ++ d] else []
  | none => []

/-- The whole of `main` (lines 126-256).  Order is exactly the source's:
verbose "Connecting" line; `Browser::new`; `browser.new_tab()`;
`tab.set_user_agent` when a user agent was given; `tab.set_default_timeout`;
verbose "Navigating" line; dispatch on `args.method.to_uppercase()` — GET and
POST both just navigate (POST additionally echoes the data in verbose mode),
any other method prints "Unsupported method: ..." to stderr and
`std::process::exit(1)`; then `afterNav`. -/
def run (args : Config) (env : Env) : RunResult :=
  let connErr := if args.verbose then ["* Connecting to " ++ args.url ++ "..."] else []
  match env.launch with
  | .error e =>
      { browserOps := [.launch], stdoutLines := [], stderrLines := connErr
        filesWritten := [], content := none, outcome := .errExit e }
  | .ok _ =>
  match env.newTab with
  | .error e =>
      { browserOps := [.launch, .newTab], stdoutLines := [], stderrLines := connErr
        filesWritten := [], content := none, outcome := .errExit e }
  | .ok _ =>
  let uaOps : List BrowserOp :=
    match args.user_agent with
    | some ua => [.setUserAgent ua]
    | none => []
  let uaRes : Except String Unit :=
    match args.user_agent with
    | some _ => env.setUserAgent
    | none => .ok ()
  match uaRes with
  | .error e =>
      { browserOps := [.launch, .newTab] ++ uaOps, stdoutLines := []
        stderrLines := connErr, filesWritten := [], content := none, outcome := .errExit e }
  | .ok _ =>
  let ops0 := [.launch, .newTab] ++ uaOps ++ [.setDefaultTimeout args.timeout]
  let navErr := connErr ++
    (if args.verbose then ["* Navigating to " ++ args.url ++ "..."] else [])
  let m := toUppercase args.method
  if m = "GET" then
    match env.navigate with
    | .error e =>
        { browserOps := ops0 ++ [.navigate args.url], stdoutLines := []
          stderrLines := navErr, filesWritten := [], content := none, outcome := .errExit e }
    | .ok _ =>
        let r := afterNav args env
        { browserOps := ops0 ++ [.navigate args.url] ++ r.browserOps
          stdoutLines := r.stdoutLines
          stderrLines := navErr ++ r.stderrLines
          filesWritten := r.filesWritten
          content := r.content
          outcome := r.outcome }
  else if m = "POST" then
    match env.navigate with
    | .error e =>
        { browserOps := ops0 ++ [.navigate args.url], stdoutLines := []
          stderrLines := navErr, filesWritten := [], content := none, outcome := .errExit e }
    | .ok _ =>
        let postErr := postEcho args
        let r := afterNav args env
        { browserOps := ops0 ++ [.navigate args.url] ++ r.browserOps
          stdoutLines := r.stdoutLines
          stderrLines := navErr ++ postErr ++ r.stderrLines
          filesWritten := r.filesWritten
          content := r.content
          outcome := r.outcome }
  else
    { browserOps := ops0, stdoutLines := []
      stderrLines := navErr ++ ["Unsupported method: " ++ args.method]
      filesWritten := [], content := none, outcome := .exitCode 1 }

/-- Proof helper: the shape shared by the GET and POST branches of `run` —
setup, navigation, then `afterNav` — with the branch-specific stderr echo
lines passed in as `postErr`.  `navRun` never reads `args.method` or
`args.data`. -/
def navRun (args : Config) (env : Env) (postErr : List String) : RunResult :=
  let connErr := if args.verbose then ["* Connecting to " ++ args.url ++ "..."] else []
  match env.launch with
  | .error e =>
      { browserOps := [.launch], stdoutLines := [], stderrLines := connErr
        filesWritten := [], content := none, outcome := .errExit e }
  | .ok _ =>
  match env.newTab with
  | .error e =>
      { browserOps := [.launch, .newTab], stdoutLines := [], stderrLines := connErr
        filesWritten := [], content := none, outcome := .errExit e }
  | .ok _ =>
  let uaOps : List BrowserOp :=
    match args.user_agent with
    | some ua => [.setUserAgent ua]
    | none => []
  let uaRes : Except String Unit :=
    match args.user_agent with
    | some _ => env.setUserAgent
    | none => .ok ()
  match uaRes with
  | .error e =>
      { browserOps := [.launch, .newTab] ++ uaOps, stdoutLines := []
        stderrLines := connErr, filesWritten := [], content := none, outcome := .errExit e }
  | .ok _ =>
  let ops0 := [.launch, .newTab] ++ uaOps ++ [.setDefaultTimeout args.timeout]
  let navErr := connErr ++
    (if args.verbose then ["* Navigating to " ++ args.url ++ "..."] else [])
  match env.navigate with
  | .error e =>
      { browserOps := ops0 ++ [.navigate args.url], stdoutLines := []
        stderrLines := navErr, filesWritten := [], content := none, outcome := .errExit e }
  | .ok _ =>
      let r := afterNav args env
      { browserOps := ops0 ++ [.navigate args.url] ++ r.browserOps
        stdoutLines := r.stdoutLines
        stderrLines := navErr ++ postErr ++ r.stderrLines
        filesWritten := r.filesWritten
        content := r.content
        outcome := r.outcome }

/-! ### Concrete fixtures used by witnesses and counterexamples -/

/-- A default configuration: `jurl http://example.com` with clap defaults. -/
def cfgBase : Config :=
  { url := "http://example.com"
    method := "GET"
    include_headers := false
    verbose := false
    follow_redirects := false
    output := none
    headers := []
    data := none
    wait_for_selector := none
    timeout := 30
    screenshot := none
    format := .Html
    silent := false
    user_agent := none }

/-- An environment in which every external call succeeds. -/
def envOk : Env :=
  { launch := .ok ()
    newTab := .ok ()
    setUserAgent := .ok ()
    navigate := .ok ()
    waitForElement := .ok ()
    waitUntilNavigated := .ok ()
    captureScreenshot := .ok "PNGBYTES"
    getContent := .ok "<html><body>hi</body></html>"
    evaluate := .ok (some (.str "hello"))
    writeFile := fun _ _ => .ok ()
    fromStr := fun _ => none
    toStringPretty := fun _ => "" }

/-! ### Structural lemmas about the phases -/

/-- Extraction only ever performs `get_content` or the body-text evaluation. -/
theorem extractContent_ops (cfg : Config) (env : Env) :
    ∀ op ∈ (extractContent cfg env).ops,
      op = BrowserOp.getContent ∨ op = BrowserOp.evaluate "document.body.innerText" := by
  cases hf : cfg.format <;> simp [extractContent, hf]

/-- Text extraction with a present value yields `as_str` with `""` default. -/
theorem extract_text_ok (cfg : Config) (env : Env) (v : JsValue)
    (hf : cfg.format = OutputFormat.Text) (hev : env.evaluate = .ok (some v)) :
    (extractContent cfg env).res = .ok ((v.as_str).getD "") := by
  simp [extractContent, hf, hev]

/-- Json extraction with a present value: parse the same text; pretty-print on
success, raw text on failure. -/
theorem extract_json_ok (cfg : Config) (env : Env) (v : JsValue)
    (hf : cfg.format = OutputFormat.Json) (hev : env.evaluate = .ok (some v)) :
    (extractContent cfg env).res =
      .ok (match env.fromStr ((v.as_str).getD "") with
           | some j => env.toStringPretty j
           | none => (v.as_str).getD "") := by
  cases hj : env.fromStr ((v.as_str).getD "") <;> simp [extractContent, hf, hev, hj]

/-- With silent set, the output step prints nothing to stdout. -/
theorem outputStep_silent (cfg : Config) (env : Env) (c : String)
    (hs : cfg.silent = true) :
    (outputStep cfg env c).out = [] := by
  cases ho : cfg.output with
  | none => simp [outputStep, ho, hs]
  | some f => cases hw : env.writeFile f c <;> simp [outputStep, ho, hw, hs]

/-- The output step never panics: it succeeds or propagates a write error. -/
theorem outputStep_no_panic (cfg : Config) (env : Env) (c : String) :
    ∀ m, (outputStep cfg env c).outcome ≠ Outcome.panicked m := by
  intro m
  cases ho : cfg.output with
  | none => simp [outputStep, ho]
  | some f => cases hw : env.writeFile f c <;> simp [outputStep, ho, hw]

/-- After a successful extraction, the tail of the run is: synthetic header
block, then the output step. -/
theorem afterWait_extract_ok (cfg : Config) (env : Env) (c : String)
    (hs : cfg.screenshot = none) (hr : (extractContent cfg env).res = .ok c) :
    (afterWait cfg env).content = some c
  ∧ (afterWait cfg env).stdoutLines = headerLines cfg c ++ (outputStep cfg env c).out
  ∧ (afterWait cfg env).filesWritten = (outputStep cfg env c).files
  ∧ (afterWait cfg env).outcome = (outputStep cfg env c).outcome := by
  simp [afterWait, hs, hr]

/-- In screenshot mode with capture and write succeeding, the tail of the run
writes the file, prints exactly the confirmation line, and succeeds. -/
theorem afterWait_screenshot (cfg : Config) (env : Env) (path shot : String)
    (hs : cfg.screenshot = some path) (hc : env.captureScreenshot = .ok shot)
    (hw : env.writeFile path shot = .ok ()) :
    (afterWait cfg env).browserOps = [BrowserOp.captureScreenshot]
  ∧ (afterWait cfg env).stdoutLines = ["Screenshot saved to: " ++ path]
  ∧ (afterWait cfg env).filesWritten = [(path, shot)]
  ∧ (afterWait cfg env).content = none
  ∧ (afterWait cfg env).outcome = Outcome.success := by
  simp [afterWait, hs, hc, hw]

/-- Everything after the wait step only performs screenshot capture,
`get_content`, or the body-text evaluation. -/
theorem afterWait_ops (cfg : Config) (env : Env) :
    ∀ op ∈ (afterWait cfg env).browserOps,
      op = BrowserOp.captureScreenshot ∨ op = BrowserOp.getContent
        ∨ op = BrowserOp.evaluate "document.body.innerText" := by
  cases hs : cfg.screenshot with
  | some path =>
      cases hc : env.captureScreenshot with
      | error e => simp [afterWait, hs, hc]
      | ok shot => cases hw : env.writeFile path shot <;> simp [afterWait, hs, hc, hw]
  | none =>
      cases hr : (extractContent cfg env).res <;>
        · intro op hop
          rcases extractContent_ops cfg env op
              (by simpa [afterWait, hs, hr] using hop) with h | h
          · exact Or.inr (Or.inl h)
          · exact Or.inr (Or.inr h)

/-- With both wait primitives succeeding, `afterNav` is the wait ops followed
by the post-wait tail, all other observables being the tail's. -/
theorem afterNav_waitOk (cfg : Config) (env : Env)
    (hWE : env.waitForElement = .ok ()) (hWN : env.waitUntilNavigated = .ok ()) :
    (afterNav cfg env).content = (afterWait cfg env).content
  ∧ (afterNav cfg env).stdoutLines = (afterWait cfg env).stdoutLines
  ∧ (afterNav cfg env).filesWritten = (afterWait cfg env).filesWritten
  ∧ (afterNav cfg env).outcome = (afterWait cfg env).outcome
  ∧ (afterNav cfg env).browserOps = (waitStep cfg env).ops ++ (afterWait cfg env).browserOps := by
  cases hsel : cfg.wait_for_selector with
  | some sel => simp [afterNav, waitStep, hsel, hWE]
  | none => simp [afterNav, waitStep, hsel, hWN]

/-- With browser setup and navigation succeeding and a supported method, the
run's observables are those of `afterNav`, prefixed (for the op trace) by the
setup and navigation calls. -/
theorem run_reaches_afterNav (cfg : Config) (env : Env)
    (hL : env.launch = .ok ()) (hT : env.newTab = .ok ()) (hU : env.setUserAgent = .ok ())
    (hN : env.navigate = .ok ())
    (hm : toUppercase cfg.method = "GET" ∨ toUppercase cfg.method = "POST") :
    (run cfg env).content = (afterNav cfg env).content
  ∧ (run cfg env).stdoutLines = (afterNav cfg env).stdoutLines
  ∧ (run cfg env).filesWritten = (afterNav cfg env).filesWritten
  ∧ (run cfg env).outcome = (afterNav cfg env).outcome
  ∧ ∃ pre, (run cfg env).browserOps = pre ++ (afterNav cfg env).browserOps
      ∧ ∀ op ∈ pre, op = BrowserOp.launch ∨ op = BrowserOp.newTab
          ∨ (∃ ua, op = BrowserOp.setUserAgent ua)
          ∨ op = BrowserOp.setDefaultTimeout cfg.timeout
          ∨ op = BrowserOp.navigate cfg.url := by
  rcases hm with hm | hm <;> cases hua : cfg.user_agent with
  | none =>
      refine ⟨?_, ?_, ?_, ?_,
        ⟨[.launch, .newTab, .setDefaultTimeout cfg.timeout, .navigate cfg.url], ?_, ?_⟩⟩ <;>
        simp [run, hL, hT, hU, hN, hua, hm]
  | some ua =>
      refine ⟨?_, ?_, ?_, ?_,
        ⟨[.launch, .newTab, .setUserAgent ua, .setDefaultTimeout cfg.timeout,
          .navigate cfg.url], ?_, ?_⟩⟩ <;>
        simp [run, hL, hT, hU, hN, hua, hm]

/-- The wait step only ever performs the selector wait, the navigation wait,
or the 2-second sleep. -/
theorem waitStep_ops (cfg : Config) (env : Env) :
    ∀ op ∈ (waitStep cfg env).ops,
      op = BrowserOp.waitUntilNavigated ∨ op = BrowserOp.sleepSecs 2
        ∨ ∃ s, op = BrowserOp.waitForElement s := by
  cases hsel : cfg.wait_for_selector with
  | some sel => simp [waitStep, hsel]
  | none => cases hn : env.waitUntilNavigated <;> simp [waitStep, hsel, hn]

/-- Under a successful setup, navigation and wait, the op trace decomposes as
setup-and-navigation ops, then the wait ops, then the post-wait ops. -/
theorem run_ops_decomp (cfg : Config) (env : Env)
    (hL : env.launch = .ok ()) (hT : env.newTab = .ok ()) (hU : env.setUserAgent = .ok ())
    (hN : env.navigate = .ok ())
    (hm : toUppercase cfg.method = "GET" ∨ toUppercase cfg.method = "POST")
    (hWE : env.waitForElement = .ok ()) (hWN : env.waitUntilNavigated = .ok ()) :
    ∃ pre, (run cfg env).browserOps =
        pre ++ (waitStep cfg env).ops ++ (afterWait cfg env).browserOps
      ∧ ∀ op ∈ pre, op = BrowserOp.launch ∨ op = BrowserOp.newTab
          ∨ (∃ ua, op = BrowserOp.setUserAgent ua)
          ∨ op = BrowserOp.setDefaultTimeout cfg.timeout
          ∨ op = BrowserOp.navigate cfg.url := by
  obtain ⟨pre, hpre, hels⟩ := (run_reaches_afterNav cfg env hL hT hU hN hm).2.2.2.2
  refine ⟨pre, ?_, hels⟩
  rw [hpre, (afterNav_waitOk cfg env hWE hWN).2.2.2.2, List.append_assoc]

/-! ### Claim C1 -/

/-- `jurl -X DELETE -A UA http://example.com` in an all-ok environment. -/
def cfgDel : Config := { cfgBase with method := "DELETE", user_agent := some "UA" }

/-- C1 counterexample: with method "DELETE" the process does print the error
and exit 1, but the browser HAS been launched, a tab created, and the
user-agent applied before the method check — contradicting "without performing
any browser work (no browser launch, no user-agent application)". -/
theorem c1_counterexample :
    (run cfgDel envOk).outcome = Outcome.exitCode 1
  ∧ "Unsupported method: DELETE" ∈ (run cfgDel envOk).stderrLines
  ∧ BrowserOp.launch ∈ (run cfgDel envOk).browserOps
  ∧ BrowserOp.setUserAgent "UA" ∈ (run cfgDel envOk).browserOps := by
  decide

/-- C1 (amended): for every configuration whose uppercased method is neither
"GET" nor "POST" (in an environment where browser setup succeeds), the program
prints an error naming the unsupported method and exits with status 1 without
performing any navigation, printing nothing to stdout and writing no file —
but the browser launch, tab creation, user-agent application and timeout
setting do occur before the method check. -/
theorem c1_unsupported_method (cfg : Config) (env : Env)
    (hL : env.launch = .ok ()) (hT : env.newTab = .ok ()) (hU : env.setUserAgent = .ok ())
    (hg : toUppercase cfg.method ≠ "GET") (hp : toUppercase cfg.method ≠ "POST") :
    (run cfg env).outcome = Outcome.exitCode 1
  ∧ ("Unsupported method: " ++ cfg.method) ∈ (run cfg env).stderrLines
  ∧ (∀ u, BrowserOp.navigate u ∉ (run cfg env).browserOps)
  ∧ (run cfg env).stdoutLines = []
  ∧ (run cfg env).filesWritten = [] := by
  cases hua : cfg.user_agent with
  | none => simp [run, hL, hT, hU, hua, hg, hp]
  | some ua => simp [run, hL, hT, hU, hua, hg, hp]

/-- C1 witness: the amended theorem applied at the concrete DELETE run. -/
theorem c1_witness :
    (run cfgDel envOk).outcome = Outcome.exitCode 1
  ∧ ("Unsupported method: " ++ cfgDel.method) ∈ (run cfgDel envOk).stderrLines
  ∧ (∀ u, BrowserOp.navigate u ∉ (run cfgDel envOk).browserOps)
  ∧ (run cfgDel envOk).stdoutLines = []
  ∧ (run cfgDel envOk).filesWritten = [] :=
  c1_unsupported_method cfgDel envOk rfl rfl rfl (by decide) (by decide)

/-! ### Claim C2 -/

/-- `jurl --format text` against an evaluation that succeeds with no value. -/
def cfgText : Config := { cfgBase with format := .Text }

/-- Environment where the body-text evaluation succeeds but yields no value. -/
def envNoVal : Env := { envOk with evaluate := .ok none }

/-- C2 counterexample: when the in-page evaluation succeeds but yields no
value, the extracted content is NOT an empty string — `result.value.unwrap()`
panics and the process terminates abnormally. -/
theorem c2_counterexample :
    (run cfgText envNoVal).outcome = Outcome.panicked "called Option::unwrap on a None value"
  ∧ (run cfgText envNoVal).content = none := by
  decide

/-- C2 (amended): in Text format, when the evaluation succeeds and yields a
value that is not a string, the extracted content is the empty string and the
run never panics; but when the evaluation yields no value at all the program
panics (`Option::unwrap` on `None`) instead of degrading to an empty
string. -/
theorem c2_text_nonstring_empty (cfg : Config) (env : Env) (v : JsValue)
    (hL : env.launch = .ok ()) (hT : env.newTab = .ok ()) (hU : env.setUserAgent = .ok ())
    (hN : env.navigate = .ok ()) (hWE : env.waitForElement = .ok ())
    (hWN : env.waitUntilNavigated = .ok ())
    (hm : toUppercase cfg.method = "GET" ∨ toUppercase cfg.method = "POST")
    (hsc : cfg.screenshot = none) (hf : cfg.format = OutputFormat.Text)
    (hev : env.evaluate = .ok (some v)) (hstr : v.as_str = none) :
    (run cfg env).content = some ""
  ∧ (∀ m, (run cfg env).outcome ≠ Outcome.panicked m) := by
  have hx : (extractContent cfg env).res = .ok "" := by
    simpa [hstr] using extract_text_ok cfg env v hf hev
  have hW := afterWait_extract_ok cfg env "" hsc hx
  have hA := afterNav_waitOk cfg env hWE hWN
  have hR := run_reaches_afterNav cfg env hL hT hU hN hm
  refine ⟨?_, ?_⟩
  · rw [hR.1, hA.1, hW.1]
  · intro m
    rw [hR.2.2.2.1, hA.2.2.2.1, hW.2.2.2]
    exact outputStep_no_panic cfg env "" m

/-- C2 witness: the amended theorem at a concrete non-string evaluation. -/
theorem c2_witness :
    (run cfgText { envOk with evaluate := .ok (some JsValue.nonStr) }).content = some ""
  ∧ (∀ m, (run cfgText { envOk with evaluate := .ok (some JsValue.nonStr) }).outcome
        ≠ Outcome.panicked m) :=
  c2_text_nonstring_empty cfgText { envOk with evaluate := .ok (some JsValue.nonStr) }
    JsValue.nonStr rfl rfl rfl rfl rfl rfl (Or.inl (by decide)) rfl rfl rfl rfl

/-! ### Claim C3 -/

/-- C3 (confirmed): in JSON format the body text is extracted exactly as in
Text format (same evaluation, same `as_str`-with-`""`-default); when
`serde_json::from_str` succeeds the content is the pretty-printed value, and
when it fails the content is the raw extracted text unchanged, with no error
surfaced. -/
theorem c3_json_fallback (cfg : Config) (env : Env) (v : JsValue)
    (hL : env.launch = .ok ()) (hT : env.newTab = .ok ()) (hU : env.setUserAgent = .ok ())
    (hN : env.navigate = .ok ()) (hWE : env.waitForElement = .ok ())
    (hWN : env.waitUntilNavigated = .ok ())
    (hm : toUppercase cfg.method = "GET" ∨ toUppercase cfg.method = "POST")
    (hsc : cfg.screenshot = none) (hf : cfg.format = OutputFormat.Json)
    (hev : env.evaluate = .ok (some v)) :
    (run { cfg with format := OutputFormat.Text } env).content = some ((v.as_str).getD "")
  ∧ (∀ j, env.fromStr ((v.as_str).getD "") = some j →
        (run cfg env).content = some (env.toStringPretty j)
      ∧ (∀ m, (run cfg env).outcome ≠ Outcome.panicked m))
  ∧ (env.fromStr ((v.as_str).getD "") = none →
        (run cfg env).content = some ((v.as_str).getD "")
      ∧ (∀ m, (run cfg env).outcome ≠ Outcome.panicked m)) := by
  have hx := extract_json_ok cfg env v hf hev
  have content_of : ∀ c : String, (extractContent cfg env).res = .ok c →
      (run cfg env).content = some c ∧ (∀ m, (run cfg env).outcome ≠ Outcome.panicked m) := by
    intro c hc
    have hW := afterWait_extract_ok cfg env c hsc hc
    have hA := afterNav_waitOk cfg env hWE hWN
    have hR := run_reaches_afterNav cfg env hL hT hU hN hm
    refine ⟨?_, ?_⟩
    · rw [hR.1, hA.1, hW.1]
    · intro m
      rw [hR.2.2.2.1, hA.2.2.2.1, hW.2.2.2]
      exact outputStep_no_panic cfg env c m
  refine ⟨?_, ?_, ?_⟩
  · -- the Text-format run extracts the very same text
    have hxT : (extractContent { cfg with format := OutputFormat.Text } env).res =
        .ok ((v.as_str).getD "") := extract_text_ok _ env v rfl hev
    have hW := afterWait_extract_ok { cfg with format := OutputFormat.Text } env
      ((v.as_str).getD "") hsc hxT
    have hA := afterNav_waitOk { cfg with format := OutputFormat.Text } env hWE hWN
    have hR := run_reaches_afterNav { cfg with format := OutputFormat.Text } env hL hT hU hN hm
    rw [hR.1, hA.1, hW.1]
  · intro j hj
    refine content_of (env.toStringPretty j) ?_
    rw [hx]
    simp [hj]
  · intro hj
    refine content_of ((v.as_str).getD "") ?_
    rw [hx]
    simp [hj]

/-- An environment whose page body text is JSON that parses to `.null`, and
whose pretty-printer renders it as "null". -/
def envJson : Env :=
  { envOk with
    evaluate := .ok (some (.str "null"))
    fromStr := fun s => if s = "null" then some JValue.null else none
    toStringPretty := fun _ => "null" }

/-- C3 witness: the theorem at a concrete parse-success environment. -/
theorem c3_witness :
    (run { { cfgBase with format := OutputFormat.Json } with format := OutputFormat.Text }
        envJson).content = some ((JsValue.str "null").as_str.getD "")
  ∧ (∀ j, envJson.fromStr ((JsValue.str "null").as_str.getD "") = some j →
        (run { cfgBase with format := OutputFormat.Json } envJson).content =
          some (envJson.toStringPretty j)
      ∧ (∀ m, (run { cfgBase with format := OutputFormat.Json } envJson).outcome
            ≠ Outcome.panicked m))
  ∧ (envJson.fromStr ((JsValue.str "null").as_str.getD "") = none →
        (run { cfgBase with format := OutputFormat.Json } envJson).content =
          some ((JsValue.str "null").as_str.getD "")
      ∧ (∀ m, (run { cfgBase with format := OutputFormat.Json } envJson).outcome
            ≠ Outcome.panicked m)) :=
  c3_json_fallback { cfgBase with format := OutputFormat.Json } envJson (JsValue.str "null")
    rfl rfl rfl rfl rfl rfl (Or.inl (by decide)) rfl rfl rfl

/-! ### Claim C4 -/

/-- C4 (confirmed): with a screenshot path supplied (and capture and write
succeeding), the run writes the PNG bytes to that path, prints exactly the
confirmation line, terminates successfully, and performs no content
extraction (no `get_content`, no script evaluation, no content value). -/
theorem c4_screenshot_mode (cfg : Config) (env : Env) (path shot : String)
    (hL : env.launch = .ok ()) (hT : env.newTab = .ok ()) (hU : env.setUserAgent = .ok ())
    (hN : env.navigate = .ok ()) (hWE : env.waitForElement = .ok ())
    (hWN : env.waitUntilNavigated = .ok ())
    (hm : toUppercase cfg.method = "GET" ∨ toUppercase cfg.method = "POST")
    (hsc : cfg.screenshot = some path)
    (hc : env.captureScreenshot = .ok shot) (hw : env.writeFile path shot = .ok ()) :
    (run cfg env).outcome = Outcome.success
  ∧ (run cfg env).filesWritten = [(path, shot)]
  ∧ (run cfg env).stdoutLines = ["Screenshot saved to: " ++ path]
  ∧ (run cfg env).content = none
  ∧ BrowserOp.getContent ∉ (run cfg env).browserOps
  ∧ (∀ s, BrowserOp.evaluate s ∉ (run cfg env).browserOps) := by
  have hS := afterWait_screenshot cfg env path shot hsc hc hw
  have hA := afterNav_waitOk cfg env hWE hWN
  have hR := run_reaches_afterNav cfg env hL hT hU hN hm
  obtain ⟨pre, hpre, hels⟩ := run_ops_decomp cfg env hL hT hU hN hm hWE hWN
  refine ⟨?_, ?_, ?_, ?_, ?_, ?_⟩
  · rw [hR.2.2.2.1, hA.2.2.2.1, hS.2.2.2.2]
  · rw [hR.2.2.1, hA.2.2.1, hS.2.2.1]
  · rw [hR.2.1, hA.2.1, hS.2.1]
  · rw [hR.1, hA.1, hS.2.2.2.1]
  · intro hmem
    rw [hpre, hS.1] at hmem
    rcases List.mem_append.1 hmem with hmem | hmem
    · rcases List.mem_append.1 hmem with hmem | hmem
      · rcases hels _ hmem with h | h | ⟨ua, h⟩ | h | h <;> simp at h
      · rcases waitStep_ops cfg env _ hmem with h | h | ⟨s, h⟩ <;> simp at h
    · simp at hmem
  · intro s hmem
    rw [hpre, hS.1] at hmem
    rcases List.mem_append.1 hmem with hmem | hmem
    · rcases List.mem_append.1 hmem with hmem | hmem
      · rcases hels _ hmem with h | h | ⟨ua, h⟩ | h | h <;> simp at h
      · rcases waitStep_ops cfg env _ hmem with h | h | ⟨s', h⟩ <;> simp at h
    · simp at hmem

/-- `jurl --screenshot out.png -s http://example.com`. -/
def cfgShot : Config := { cfgBase with screenshot := some "out.png", silent := true }

/-- C4 witness: the theorem at the concrete screenshot run. -/
theorem c4_witness :
    (run cfgShot envOk).outcome = Outcome.success
  ∧ (run cfgShot envOk).filesWritten = [("out.png", "PNGBYTES")]
  ∧ (run cfgShot envOk).stdoutLines = ["Screenshot saved to: " ++ "out.png"]
  ∧ (run cfgShot envOk).content = none
  ∧ BrowserOp.getContent ∉ (run cfgShot envOk).browserOps
  ∧ (∀ s, BrowserOp.evaluate s ∉ (run cfgShot envOk).browserOps) :=
  c4_screenshot_mode cfgShot envOk "out.png" "PNGBYTES"
    rfl rfl rfl rfl rfl rfl (Or.inl (by decide)) rfl rfl rfl

/-! ### Claim C10 -/

/-- C10 (confirmed): in screenshot mode the confirmation line is printed to
stdout even when the silent flag is set — `-s` does not suppress it. -/
theorem c10_screenshot_line_ignores_silent (cfg : Config) (env : Env) (path shot : String)
    (hL : env.launch = .ok ()) (hT : env.newTab = .ok ()) (hU : env.setUserAgent = .ok ())
    (hN : env.navigate = .ok ()) (hWE : env.waitForElement = .ok ())
    (hWN : env.waitUntilNavigated = .ok ())
    (hm : toUppercase cfg.method = "GET" ∨ toUppercase cfg.method = "POST")
    (hsc : cfg.screenshot = some path)
    (hc : env.captureScreenshot = .ok shot) (hw : env.writeFile path shot = .ok ())
    (_hsil : cfg.silent = true) :
    ("Screenshot saved to: " ++ path) ∈ (run cfg env).stdoutLines
  ∧ (run cfg env).stdoutLines = ["Screenshot saved to: " ++ path] := by
  have hS := afterWait_screenshot cfg env path shot hsc hc hw
  have hA := afterNav_waitOk cfg env hWE hWN
  have hR := run_reaches_afterNav cfg env hL hT hU hN hm
  have h : (run cfg env).stdoutLines = ["Screenshot saved to: " ++ path] := by
    rw [hR.2.1, hA.2.1, hS.2.1]
  exact ⟨h ▸ List.mem_singleton.2 rfl, h⟩

/-- C10 witness: the theorem at the concrete silent screenshot run. -/
theorem c10_witness :
    ("Screenshot saved to: " ++ "out.png") ∈ (run cfgShot envOk).stdoutLines
  ∧ (run cfgShot envOk).stdoutLines = ["Screenshot saved to: " ++ "out.png"] :=
  c10_screenshot_line_ignores_silent cfgShot envOk "out.png" "PNGBYTES"
    rfl rfl rfl rfl rfl rfl (Or.inl (by decide)) rfl rfl rfl rfl

/-! ### Claim C5 -/

/-- C5 (confirmed): in non-screenshot mode, once extraction has produced the
content, stdout is the synthetic header block (status line, Content-Length
equal to the content's byte length, fixed Content-Type, blank line) — present
exactly when the include-headers flag is set and silent is not — followed by
the output step's lines; and with silent set, stdout is empty (`-i -s` prints
nothing). -/
theorem c5_synthetic_headers (cfg : Config) (env : Env) (c : String)
    (hL : env.launch = .ok ()) (hT : env.newTab = .ok ()) (hU : env.setUserAgent = .ok ())
    (hN : env.navigate = .ok ()) (hWE : env.waitForElement = .ok ())
    (hWN : env.waitUntilNavigated = .ok ())
    (hm : toUppercase cfg.method = "GET" ∨ toUppercase cfg.method = "POST")
    (hsc : cfg.screenshot = none)
    (hx : (extractContent cfg env).res = .ok c) :
    (run cfg env).stdoutLines = headerLines cfg c ++ (outputStep cfg env c).out
  ∧ (cfg.include_headers = true → cfg.silent = false →
      (run cfg env).stdoutLines =
        ["HTTP/1.1 200 OK",
         "Content-Length: " ++ toString c.utf8ByteSize,
         "Content-Type: text/html; charset=utf-8",
         ""] ++ (outputStep cfg env c).out)
  ∧ ((cfg.include_headers = false ∨ cfg.silent = true) →
      (run cfg env).stdoutLines = (outputStep cfg env c).out)
  ∧ (cfg.silent = true → (run cfg env).stdoutLines = []) := by
  have hW := afterWait_extract_ok cfg env c hsc hx
  have hA := afterNav_waitOk cfg env hWE hWN
  have hR := run_reaches_afterNav cfg env hL hT hU hN hm
  have hmain : (run cfg env).stdoutLines = headerLines cfg c ++ (outputStep cfg env c).out := by
    rw [hR.2.1, hA.2.1, hW.2.1]
  refine ⟨hmain, ?_, ?_, ?_⟩
  · intro hi hs
    rw [hmain]
    simp [headerLines, hi, hs]
  · intro h
    rw [hmain]
    rcases h with h | h <;> simp [headerLines, h]
  · intro h
    rw [hmain, outputStep_silent cfg env c h]
    simp [headerLines, h]

/-- `jurl -i -s --format text http://example.com`. -/
def cfgIS : Config := { cfgBase with include_headers := true, silent := true, format := .Text }

/-- C5 witness: the theorem at the concrete `-i -s` run — stdout is empty. -/
theorem c5_witness :
    (run cfgIS envOk).stdoutLines = headerLines cfgIS "hello" ++ (outputStep cfgIS envOk "hello").out
  ∧ (cfgIS.include_headers = true → cfgIS.silent = false →
      (run cfgIS envOk).stdoutLines =
        ["HTTP/1.1 200 OK",
         "Content-Length: " ++ toString ("hello" : String).utf8ByteSize,
         "Content-Type: text/html; charset=utf-8",
         ""] ++ (outputStep cfgIS envOk "hello").out)
  ∧ ((cfgIS.include_headers = false ∨ cfgIS.silent = true) →
      (run cfgIS envOk).stdoutLines = (outputStep cfgIS envOk "hello").out)
  ∧ (cfgIS.silent = true → (run cfgIS envOk).stdoutLines = []) :=
  c5_synthetic_headers cfgIS envOk "hello"
    rfl rfl rfl rfl rfl rfl (Or.inl (by decide)) rfl (by decide)

/-! ### Claim C7 -/

/-- C7 (confirmed): when a selector is provided the run waits for that element
and performs no sleep and no navigation wait; when no selector is provided the
run waits until navigated and then sleeps exactly 2 seconds — the 2-second
delay happens exactly when no selector was given. -/
theorem c7_wait_policy (cfg : Config) (env : Env)
    (hL : env.launch = .ok ()) (hT : env.newTab = .ok ()) (hU : env.setUserAgent = .ok ())
    (hN : env.navigate = .ok ()) (hWE : env.waitForElement = .ok ())
    (hWN : env.waitUntilNavigated = .ok ())
    (hm : toUppercase cfg.method = "GET" ∨ toUppercase cfg.method = "POST") :
    (∀ sel, cfg.wait_for_selector = some sel →
        BrowserOp.waitForElement sel ∈ (run cfg env).browserOps
      ∧ (∀ n, BrowserOp.sleepSecs n ∉ (run cfg env).browserOps)
      ∧ BrowserOp.waitUntilNavigated ∉ (run cfg env).browserOps)
  ∧ (cfg.wait_for_selector = none →
        BrowserOp.sleepSecs 2 ∈ (run cfg env).browserOps
      ∧ BrowserOp.waitUntilNavigated ∈ (run cfg env).browserOps
      ∧ (∀ s, BrowserOp.waitForElement s ∉ (run cfg env).browserOps)) := by
  obtain ⟨pre, hpre, hels⟩ := run_ops_decomp cfg env hL hT hU hN hm hWE hWN
  have hAW := afterWait_ops cfg env
  constructor
  · intro sel hsel
    have hw : (waitStep cfg env).ops = [BrowserOp.waitForElement sel] := by
      simp [waitStep, hsel]
    refine ⟨?_, ?_, ?_⟩
    · rw [hpre, hw]
      simp
    · intro n hmem
      rw [hpre, hw] at hmem
      rcases List.mem_append.1 hmem with hmem | hmem
      · rcases List.mem_append.1 hmem with hmem | hmem
        · rcases hels _ hmem with h | h | ⟨ua, h⟩ | h | h <;> simp at h
        · simp at hmem
      · rcases hAW _ hmem with h | h | h <;> simp at h
    · intro hmem
      rw [hpre, hw] at hmem
      rcases List.mem_append.1 hmem with hmem | hmem
      · rcases List.mem_append.1 hmem with hmem | hmem
        · rcases hels _ hmem with h | h | ⟨ua, h⟩ | h | h <;> simp at h
        · simp at hmem
      · rcases hAW _ hmem with h | h | h <;> simp at h
  · intro hsel
    have hw : (waitStep cfg env).ops = [BrowserOp.waitUntilNavigated, BrowserOp.sleepSecs 2] := by
      simp [waitStep, hsel, hWN]
    refine ⟨?_, ?_, ?_⟩
    · rw [hpre, hw]
      simp
    · rw [hpre, hw]
      simp
    · intro s hmem
      rw [hpre, hw] at hmem
      rcases List.mem_append.1 hmem with hmem | hmem
      · rcases List.mem_append.1 hmem with hmem | hmem
        · rcases hels _ hmem with h | h | ⟨ua, h⟩ | h | h <;> simp at h
        · simp at hmem
      · rcases hAW _ hmem with h | h | h <;> simp at h

/-- `jurl --wait-for-selector "#app" http://example.com`. -/
def cfgSel : Config := { cfgBase with wait_for_selector := some "#app" }

/-- C7 witness: the theorem at a concrete selector run and at the default
no-selector run. -/
theorem c7_witness :
    ((∀ sel, cfgSel.wait_for_selector = some sel →
        BrowserOp.waitForElement sel ∈ (run cfgSel envOk).browserOps
      ∧ (∀ n, BrowserOp.sleepSecs n ∉ (run cfgSel envOk).browserOps)
      ∧ BrowserOp.waitUntilNavigated ∉ (run cfgSel envOk).browserOps)
  ∧ (cfgSel.wait_for_selector = none →
        BrowserOp.sleepSecs 2 ∈ (run cfgSel envOk).browserOps
      ∧ BrowserOp.waitUntilNavigated ∈ (run cfgSel envOk).browserOps
      ∧ (∀ s, BrowserOp.waitForElement s ∉ (run cfgSel envOk).browserOps)))
  ∧ ((∀ sel, cfgBase.wait_for_selector = some sel →
        BrowserOp.waitForElement sel ∈ (run cfgBase envOk).browserOps
      ∧ (∀ n, BrowserOp.sleepSecs n ∉ (run cfgBase envOk).browserOps)
      ∧ BrowserOp.waitUntilNavigated ∉ (run cfgBase envOk).browserOps)
  ∧ (cfgBase.wait_for_selector = none →
        BrowserOp.sleepSecs 2 ∈ (run cfgBase envOk).browserOps
      ∧ BrowserOp.waitUntilNavigated ∈ (run cfgBase envOk).browserOps
      ∧ (∀ s, BrowserOp.waitForElement s ∉ (run cfgBase envOk).browserOps))) :=
  ⟨c7_wait_policy cfgSel envOk rfl rfl rfl rfl rfl rfl (Or.inl (by decide)),
   c7_wait_policy cfgBase envOk rfl rfl rfl rfl rfl rfl (Or.inl (by decide))⟩

/-! ### Claim C8 -/

/-- C8 (confirmed): after successful extraction, if an output path was given
(and the write succeeds) the content is written to that file and a
confirmation line is printed unless silent — in particular, with silent set
and an output file given, stdout is empty while the file is still written;
with no output path the content goes to stdout unless silent. -/
theorem c8_output_routing (cfg : Config) (env : Env) (c : String)
    (hL : env.launch = .ok ()) (hT : env.newTab = .ok ()) (hU : env.setUserAgent = .ok ())
    (hN : env.navigate = .ok ()) (hWE : env.waitForElement = .ok ())
    (hWN : env.waitUntilNavigated = .ok ())
    (hm : toUppercase cfg.method = "GET" ∨ toUppercase cfg.method = "POST")
    (hsc : cfg.screenshot = none)
    (hx : (extractContent cfg env).res = .ok c) :
    (∀ f, cfg.output = some f → env.writeFile f c = .ok () →
        (run cfg env).filesWritten = [(f, c)]
      ∧ (run cfg env).outcome = Outcome.success
      ∧ (run cfg env).stdoutLines =
          headerLines cfg c ++ (if cfg.silent then [] else ["Output saved to: " ++ f])
      ∧ (cfg.silent = true → (run cfg env).stdoutLines = []))
  ∧ (cfg.output = none →
        (run cfg env).filesWritten = []
      ∧ (run cfg env).outcome = Outcome.success
      ∧ (run cfg env).stdoutLines = headerLines cfg c ++ (if cfg.silent then [] else [c])) := by
  have hW := afterWait_extract_ok cfg env c hsc hx
  have hA := afterNav_waitOk cfg env hWE hWN
  have hR := run_reaches_afterNav cfg env hL hT hU hN hm
  have hout : (run cfg env).stdoutLines = headerLines cfg c ++ (outputStep cfg env c).out := by
    rw [hR.2.1, hA.2.1, hW.2.1]
  have hfiles : (run cfg env).filesWritten = (outputStep cfg env c).files := by
    rw [hR.2.2.1, hA.2.2.1, hW.2.2.1]
  have houtc : (run cfg env).outcome = (outputStep cfg env c).outcome := by
    rw [hR.2.2.2.1, hA.2.2.2.1, hW.2.2.2]
  constructor
  · intro f hf hwr
    refine ⟨?_, ?_, ?_, ?_⟩
    · rw [hfiles]
      simp [outputStep, hf, hwr]
    · rw [houtc]
      simp [outputStep, hf, hwr]
    · rw [hout]
      simp [outputStep, hf, hwr]
    · intro hs
      rw [hout, outputStep_silent cfg env c hs]
      simp [headerLines, hs]
  · intro hf
    refine ⟨?_, ?_, ?_⟩
    · rw [hfiles]
      simp [outputStep, hf]
    · rw [houtc]
      simp [outputStep, hf]
    · rw [hout]
      simp [outputStep, hf]

/-- `jurl -s -o out.html http://example.com`. -/
def cfgFile : Config := { cfgBase with output := some "out.html", silent := true }

/-- C8 witness: the theorem at the concrete silent file-output run. -/
theorem c8_witness :
    (∀ f, cfgFile.output = some f → envOk.writeFile f "<html><body>hi</body></html>" = .ok () →
        (run cfgFile envOk).filesWritten = [(f, "<html><body>hi</body></html>")]
      ∧ (run cfgFile envOk).outcome = Outcome.success
      ∧ (run cfgFile envOk).stdoutLines =
          headerLines cfgFile "<html><body>hi</body></html>" ++
            (if cfgFile.silent then [] else ["Output saved to: " ++ f])
      ∧ (cfgFile.silent = true → (run cfgFile envOk).stdoutLines = []))
  ∧ (cfgFile.output = none →
        (run cfgFile envOk).filesWritten = []
      ∧ (run cfgFile envOk).outcome = Outcome.success
      ∧ (run cfgFile envOk).stdoutLines =
          headerLines cfgFile "<html><body>hi</body></html>" ++
            (if cfgFile.silent then [] else ["<html><body>hi</body></html>"])) :=
  c8_output_routing cfgFile envOk "<html><body>hi</body></html>"
    rfl rfl rfl rfl rfl rfl (Or.inl (by decide)) rfl rfl

/-- A GET run is `navRun` with no extra stderr echo. -/
theorem run_get_eq (cfg : Config) (env : Env) (hm : toUppercase cfg.method = "GET") :
    run cfg env = navRun cfg env [] := by
  cases hLa : env.launch with
  | error e => simp [run, navRun, hLa]
  | ok u =>
    cases hTa : env.newTab with
    | error e => simp [run, navRun, hLa, hTa]
    | ok u2 =>
      cases hua : cfg.user_agent with
      | none =>
        cases hNa : env.navigate <;> simp [run, navRun, hLa, hTa, hua, hm, hNa]
      | some ua =>
        cases hUa : env.setUserAgent with
        | error e => simp [run, navRun, hLa, hTa, hua, hUa]
        | ok u4 =>
          cases hNa : env.navigate <;> simp [run, navRun, hLa, hTa, hua, hUa, hm, hNa]

/-- A POST run is `navRun` with the verbose data echo. -/
theorem run_post_eq (cfg : Config) (env : Env) (hm : toUppercase cfg.method = "POST") :
    run cfg env = navRun cfg env (postEcho cfg) := by
  cases hLa : env.launch with
  | error e => simp [run, navRun, hLa]
  | ok u =>
    cases hTa : env.newTab with
    | error e => simp [run, navRun, hLa, hTa]
    | ok u2 =>
      cases hua : cfg.user_agent with
      | none =>
        cases hNa : env.navigate <;> simp [run, navRun, hLa, hTa, hua, hm, hNa]
      | some ua =>
        cases hUa : env.setUserAgent with
        | error e => simp [run, navRun, hLa, hTa, hua, hUa]
        | ok u4 =>
          cases hNa : env.navigate <;> simp [run, navRun, hLa, hTa, hua, hUa, hm, hNa]

/-- The extra stderr echo is the only observable difference `postErr` can
make: every other field of `navRun` ignores it. -/
theorem navRun_postErr_indep (cfg : Config) (env : Env) (pe : List String) :
    (navRun cfg env pe).browserOps = (navRun cfg env []).browserOps
  ∧ (navRun cfg env pe).stdoutLines = (navRun cfg env []).stdoutLines
  ∧ (navRun cfg env pe).filesWritten = (navRun cfg env []).filesWritten
  ∧ (navRun cfg env pe).content = (navRun cfg env []).content
  ∧ (navRun cfg env pe).outcome = (navRun cfg env []).outcome := by
  cases hLa : env.launch with
  | error e => simp [navRun, hLa]
  | ok u =>
    cases hTa : env.newTab with
    | error e => simp [navRun, hLa, hTa]
    | ok u2 =>
      cases hua : cfg.user_agent with
      | none =>
        cases hNa : env.navigate <;> simp [navRun, hLa, hTa, hua, hNa]
      | some ua =>
        cases hUa : env.setUserAgent with
        | error e => simp [navRun, hLa, hTa, hua, hUa]
        | ok u4 =>
          cases hNa : env.navigate <;> simp [navRun, hLa, hTa, hua, hUa, hNa]

/-- With verbosity off or no data supplied, the POST echo is empty. -/
theorem postEcho_nil (cfg : Config) (h : cfg.verbose = false ∨ cfg.data = none) :
    postEcho cfg = [] := by
  rcases h with h | h
  · cases hd : cfg.data <;> simp [postEcho, hd, h]
  · simp [postEcho, h]

/-! ### Claim C6 -/

/-- C6 (confirmed): a configuration whose method uppercases to "POST" behaves
exactly like the same configuration with method "GET": identical browser
calls (one navigation, no payload), stdout, files, content and outcome in
every environment; the supplied body string can only show up as a verbose
stderr echo — with verbosity off or no data supplied, even stderr is
identical. -/
theorem c6_post_is_get (cfg : Config) (env : Env)
    (hm : toUppercase cfg.method = "POST") :
    ((run cfg env).browserOps = (run { cfg with method := "GET" } env).browserOps
  ∧ (run cfg env).stdoutLines = (run { cfg with method := "GET" } env).stdoutLines
  ∧ (run cfg env).filesWritten = (run { cfg with method := "GET" } env).filesWritten
  ∧ (run cfg env).content = (run { cfg with method := "GET" } env).content
  ∧ (run cfg env).outcome = (run { cfg with method := "GET" } env).outcome)
  ∧ ((cfg.verbose = false ∨ cfg.data = none) →
      (run cfg env).stderrLines = (run { cfg with method := "GET" } env).stderrLines) := by
  have h1 := run_post_eq cfg env hm
  have hg0 : toUppercase "GET" = "GET" := by decide
  have h2 : run { cfg with method := "GET" } env = navRun cfg env [] :=
    run_get_eq { cfg with method := "GET" } env hg0
  have hf := navRun_postErr_indep cfg env (postEcho cfg)
  rw [h1, h2]
  refine ⟨⟨hf.1, hf.2.1, hf.2.2.1, hf.2.2.2.1, hf.2.2.2.2⟩, ?_⟩
  intro h
  rw [postEcho_nil cfg h]

/-- `jurl -X post -d "key=value" http://example.com` (lowercase method, to
exercise the case-insensitive normalization). -/
def cfgPost : Config := { cfgBase with method := "post", data := some "key=value" }

/-- C6 witness: the theorem at the concrete lowercase-POST run with data. -/
theorem c6_witness :
    (((run cfgPost envOk).browserOps =
        (run { cfgPost with method := "GET" } envOk).browserOps
  ∧ (run cfgPost envOk).stdoutLines = (run { cfgPost with method := "GET" } envOk).stdoutLines
  ∧ (run cfgPost envOk).filesWritten = (run { cfgPost with method := "GET" } envOk).filesWritten
  ∧ (run cfgPost envOk).content = (run { cfgPost with method := "GET" } envOk).content
  ∧ (run cfgPost envOk).outcome = (run { cfgPost with method := "GET" } envOk).outcome)
  ∧ ((cfgPost.verbose = false ∨ cfgPost.data = none) →
      (run cfgPost envOk).stderrLines =
        (run { cfgPost with method := "GET" } envOk).stderrLines)) :=
  c6_post_is_get cfgPost envOk (by decide)

/-! ### Claim C9 -/

/-- C9 (confirmed): the redirect flag (`-L`) and the custom header strings
(`-H`) are parsed but never read afterwards: changing them (and nothing else)
leaves the entire run — browser calls, stdout, stderr, files written, content
and outcome — literally identical, in every environment.  The equality is
definitional: `run` never inspects these two fields. -/
theorem c9_unused_flags (cfg : Config) (env : Env) (b : Bool) (hs : List String) :
    run { cfg with follow_redirects := b, headers := hs } env = run cfg env := rfl

end Jurl
